import Mathlib

set_option linter.unusedVariables false

/-!
# Verification of the Hestia family-platform matching engine

Shallow embedding of `backend/utils/matching.py`, the quota logic of
`backend/models/user.py`, and the match lifecycle of
`backend/models/match.py`.  Python floats are modelled as rationals (`ℚ`)
and ages/dates as integers; nullable columns become `Option` and Python
truthiness of nullable strings is made explicit.
-/

/-- `ImportanceLevel` from `models/user_preferences.py`. -/
inductive ImportanceLevel where
  | NOT_IMPORTANT
  | SOMEWHAT_IMPORTANT
  | IMPORTANT
  | VERY_IMPORTANT
  | DEAL_BREAKER
deriving DecidableEq, Repr

/-- Ordinal rank of an importance level: its declaration position in the enum. -/
def ImportanceLevel.rank : ImportanceLevel → Nat
  | .NOT_IMPORTANT => 0
  | .SOMEWHAT_IMPORTANT => 1
  | .IMPORTANT => 2
  | .VERY_IMPORTANT => 3
  | .DEAL_BREAKER => 4

/-- The "hard override" flag: the matching code treats exactly the comparison
`importance == ImportanceLevel.DEAL_BREAKER` as the deal-breaker test
(`check_deal_breakers` in `utils/matching.py`). -/
def ImportanceLevel.deal_breaker_flag (l : ImportanceLevel) : Bool :=
  l = ImportanceLevel.DEAL_BREAKER

/-- `ReligiousView` from `models/user_profile.py`. -/
inductive ReligiousView where
  | CHRISTIAN
  | CATHOLIC
  | JEWISH
  | MUSLIM
  | BUDDHIST
  | HINDU
  | SPIRITUAL
  | AGNOSTIC
  | ATHEIST
  | OTHER
  | PREFER_NOT_TO_SAY
deriving DecidableEq, Repr

/-- The `.value` string of each `ReligiousView` member. -/
def ReligiousView.value : ReligiousView → String
  | .CHRISTIAN => "christian"
  | .CATHOLIC => "catholic"
  | .JEWISH => "jewish"
  | .MUSLIM => "muslim"
  | .BUDDHIST => "buddhist"
  | .HINDU => "hindu"
  | .SPIRITUAL => "spiritual"
  | .AGNOSTIC => "agnostic"
  | .ATHEIST => "atheist"
  | .OTHER => "other"
  | .PREFER_NOT_TO_SAY => "prefer_not_to_say"

/-- `EducationLevel` from `models/user_profile.py`. -/
inductive EducationLevel where
  | HIGH_SCHOOL
  | SOME_COLLEGE
  | BACHELORS
  | MASTERS
  | DOCTORATE
  | TRADE_SCHOOL
  | OTHER
deriving DecidableEq, Repr

/-- The `.value` string of each `EducationLevel` member. -/
def EducationLevel.value : EducationLevel → String
  | .HIGH_SCHOOL => "high_school"
  | .SOME_COLLEGE => "some_college"
  | .BACHELORS => "bachelors"
  | .MASTERS => "masters"
  | .DOCTORATE => "doctorate"
  | .TRADE_SCHOOL => "trade_school"
  | .OTHER => "other"

/-- `ParentingPhilosophy` from `models/user_profile.py`. -/
inductive ParentingPhilosophy where
  | TRADITIONAL
  | PROGRESSIVE
  | ATTACHMENT
  | AUTHORITATIVE
  | PERMISSIVE
  | MONTESSORI
  | WALDORF
  | HOMESCHOOL
  | OTHER
deriving DecidableEq, Repr

/-- The fields of `UserProfile` (`models/user_profile.py`) consumed by the
matching engine.  Nullable string columns are `Option String`; nullable enum
columns are `Option` of the enum. -/
structure UserProfile where
  age : ℤ
  location_city : String
  location_state : String
  religious_views : Option ReligiousView
  education_level : Option EducationLevel
  smoking : Option String
  drinking : Option String
  exercise_frequency : Option String
  children_timeline : Option String
  desired_children_count : Option String
  parenting_philosophy : Option ParentingPhilosophy
  relationship_timeline : Option String
deriving DecidableEq, Repr

/-- The fields of `UserPreferences` (`models/user_preferences.py`) consumed by
the matching engine. -/
structure UserPreferences where
  min_age : ℤ
  max_age : ℤ
  age_importance : ImportanceLevel
  location_importance : ImportanceLevel
  willing_to_relocate : Bool
  religious_importance : ImportanceLevel
  education_importance : ImportanceLevel
  children_timeline_importance : ImportanceLevel
deriving DecidableEq, Repr

/-- Python truthiness of a nullable string: `None` and `""` are falsy. -/
def truthy : Option String → Bool
  | none => false
  | some s => s ≠ ""

/-- `get_importance_weight` from `utils/matching.py` (lines 116-125).  The
dictionary covers every enum member, so the `.get` default `1.0` is never
consulted. -/
def get_importance_weight (importance : ImportanceLevel) : ℚ :=
  match importance with
  | .NOT_IMPORTANT => 1.0
  | .SOMEWHAT_IMPORTANT => 2.0
  | .IMPORTANT => 3.0
  | .VERY_IMPORTANT => 4.0
  | .DEAL_BREAKER => 5.0

/-- `calculate_age_compatibility` from `utils/matching.py` (lines 127-141). -/
def calculate_age_compatibility (user1_profile : UserProfile) (user1_prefs : UserPreferences)
    (user2_profile : UserProfile) (user2_prefs : UserPreferences) : ℚ :=
  let user1_wants_user2 :=
    user1_prefs.min_age ≤ user2_profile.age ∧ user2_profile.age ≤ user1_prefs.max_age
  let user2_wants_user1 :=
    user2_prefs.min_age ≤ user1_profile.age ∧ user1_profile.age ≤ user2_prefs.max_age
  if user1_wants_user2 ∧ user2_wants_user1 then 1.0
  else if user1_wants_user2 ∨ user2_wants_user1 then 0.5
  else 0.0

/-- `calculate_location_compatibility` from `utils/matching.py` (lines 143-155). -/
def calculate_location_compatibility (user1_profile : UserProfile) (user1_prefs : UserPreferences)
    (user2_profile : UserProfile) (user2_prefs : UserPreferences) : ℚ :=
  if user1_profile.location_city = user2_profile.location_city ∧
      user1_profile.location_state = user2_profile.location_state then 1.0
  else if user1_profile.location_state = user2_profile.location_state then 0.7
  else if user1_prefs.willing_to_relocate || user2_prefs.willing_to_relocate then 0.5
  else 0.2

/-- `calculate_family_compatibility` from `utils/matching.py` (lines 157-186).
Each sub-factor contributes to the running `score`/`factors` accumulators only
when both profiles have the (truthy) attribute. -/
def calculate_family_compatibility (user1_profile : UserProfile) (user1_prefs : UserPreferences)
    (user2_profile : UserProfile) (user2_prefs : UserPreferences) : ℚ :=
  let timeline_in := truthy user1_profile.children_timeline && truthy user2_profile.children_timeline
  let timeline_score : ℚ := if timeline_in then
    (if user1_profile.children_timeline = user2_profile.children_timeline then 1.0 else 0.3) else 0
  let timeline_factor : ℕ := if timeline_in then 1 else 0
  let count_in := truthy user1_profile.desired_children_count && truthy user2_profile.desired_children_count
  let count_score : ℚ := if count_in then
    (if user1_profile.desired_children_count = user2_profile.desired_children_count then 1.0 else 0.5) else 0
  let count_factor : ℕ := if count_in then 1 else 0
  let parenting_in := user1_profile.parenting_philosophy.isSome && user2_profile.parenting_philosophy.isSome
  let parenting_score : ℚ := if parenting_in then
    (if user1_profile.parenting_philosophy = user2_profile.parenting_philosophy then 1.0 else 0.4) else 0
  let parenting_factor : ℕ := if parenting_in then 1 else 0
  let relationship_in := truthy user1_profile.relationship_timeline && truthy user2_profile.relationship_timeline
  let relationship_score : ℚ := if relationship_in then
    (if user1_profile.relationship_timeline = user2_profile.relationship_timeline then 1.0 else 0.6) else 0
  let relationship_factor : ℕ := if relationship_in then 1 else 0
  let score := timeline_score + count_score + parenting_score + relationship_score
  let factors := timeline_factor + count_factor + parenting_factor + relationship_factor
  if factors > 0 then score / (factors : ℚ) else 0.5

/-- The `compatible_pairs` list from `calculate_religious_compatibility`
(`utils/matching.py` lines 197-201). -/
def compatible_pairs : List (String × String) :=
  [("christian", "catholic"), ("spiritual", "buddhist"), ("agnostic", "atheist")]

/-- `calculate_religious_compatibility` from `utils/matching.py` (lines 188-210). -/
def calculate_religious_compatibility (user1_profile : UserProfile) (user1_prefs : UserPreferences)
    (user2_profile : UserProfile) (user2_prefs : UserPreferences) : ℚ :=
  match user1_profile.religious_views, user2_profile.religious_views with
  | some v1, some v2 =>
      if v1 = v2 then 1.0
      else
        let user1_view := v1.value
        let user2_view := v2.value
        if compatible_pairs.any (fun pair =>
            (user1_view == pair.1 || user1_view == pair.2) &&
            (user2_view == pair.1 || user2_view == pair.2)) then 0.7
        else 0.3
  | _, _ => 0.5

/-- The `education_hierarchy` dictionary lookup with default `2`
(`utils/matching.py` lines 217-228). -/
def education_hierarchy (v : String) : ℤ :=
  if v = "high_school" then 1
  else if v = "some_college" then 2
  else if v = "trade_school" then 2
  else if v = "bachelors" then 3
  else if v = "masters" then 4
  else if v = "doctorate" then 5
  else if v = "other" then 2
  else 2

/-- `calculate_education_compatibility` from `utils/matching.py` (lines 212-239). -/
def calculate_education_compatibility (user1_profile : UserProfile) (user1_prefs : UserPreferences)
    (user2_profile : UserProfile) (user2_prefs : UserPreferences) : ℚ :=
  match user1_profile.education_level, user2_profile.education_level with
  | some e1, some e2 =>
      let user1_level := education_hierarchy e1.value
      let user2_level := education_hierarchy e2.value
      let difference := |user1_level - user2_level|
      if difference = 0 then 1.0
      else if difference = 1 then 0.8
      else if difference = 2 then 0.6
      else 0.3
  | _, _ => 0.5

/-- `calculate_lifestyle_compatibility` from `utils/matching.py` (lines 241-274). -/
def calculate_lifestyle_compatibility (user1_profile : UserProfile) (user1_prefs : UserPreferences)
    (user2_profile : UserProfile) (user2_prefs : UserPreferences) : ℚ :=
  let smoking_in := truthy user1_profile.smoking && truthy user2_profile.smoking
  let smoking_score : ℚ := if smoking_in then
    (if user1_profile.smoking = user2_profile.smoking then 1.0
     else if user1_profile.smoking = some "never" ∨ user2_profile.smoking = some "never" then 0.3
     else 0.7) else 0
  let smoking_factor : ℕ := if smoking_in then 1 else 0
  let drinking_in := truthy user1_profile.drinking && truthy user2_profile.drinking
  let drinking_score : ℚ := if drinking_in then
    (if user1_profile.drinking = user2_profile.drinking then 1.0
     else if (user1_profile.drinking = some "never" ∨ user2_profile.drinking = some "never") ∧
         (user1_profile.drinking = some "regularly" ∨ user2_profile.drinking = some "regularly") then 0.2
     else 0.6) else 0
  let drinking_factor : ℕ := if drinking_in then 1 else 0
  let exercise_in := truthy user1_profile.exercise_frequency && truthy user2_profile.exercise_frequency
  let exercise_score : ℚ := if exercise_in then
    (if user1_profile.exercise_frequency = user2_profile.exercise_frequency then 1.0 else 0.5) else 0
  let exercise_factor : ℕ := if exercise_in then 1 else 0
  let score := smoking_score + drinking_score + exercise_score
  let factors := smoking_factor + drinking_factor + exercise_factor
  if factors > 0 then score / (factors : ℚ) else 0.5

/-- `check_deal_breakers` from `utils/matching.py` (lines 276-298): a running
`penalty`, overwritten to `1.0` on an age deal-breaker and raised to at least
`0.8` on a children-timeline deal-breaker. -/
def check_deal_breakers (user1_profile : UserProfile) (user1_prefs : UserPreferences)
    (user2_profile : UserProfile) (user2_prefs : UserPreferences) : ℚ :=
  let penalty : ℚ := 0.0
  let penalty := if user1_prefs.age_importance = ImportanceLevel.DEAL_BREAKER ∧
      ¬(user1_prefs.min_age ≤ user2_profile.age ∧ user2_profile.age ≤ user1_prefs.max_age) then
    (1.0 : ℚ) else penalty
  let penalty := if user2_prefs.age_importance = ImportanceLevel.DEAL_BREAKER ∧
      ¬(user2_prefs.min_age ≤ user1_profile.age ∧ user1_profile.age ≤ user2_prefs.max_age) then
    (1.0 : ℚ) else penalty
  let penalty := if user1_prefs.children_timeline_importance = ImportanceLevel.DEAL_BREAKER ∧
      user1_profile.children_timeline ≠ user2_profile.children_timeline then
    max penalty 0.8 else penalty
  let penalty := if user2_prefs.children_timeline_importance = ImportanceLevel.DEAL_BREAKER ∧
      user1_profile.children_timeline ≠ user2_profile.children_timeline then
    max penalty 0.8 else penalty
  penalty

/-- The Python function `round(x, 3)` modelled over `ℚ`: round to the nearest multiple of
`1/1000` (ties handled by the half-up rule of `round`; Python breaks exact ties to
even, which agrees everywhere else and is irrelevant to every bound proved
below). -/
def round3 (x : ℚ) : ℚ := ((round (x * 1000) : ℤ) : ℚ) / 1000

/-- The numeric content of the dictionary returned by
`calculate_compatibility_score`: the rounded `compatibility_score` plus the
numeric fields of `compatibility_breakdown` (explanation strings omitted). -/
structure CompatibilityResult where
  compatibility_score : ℚ
  age_score : ℚ
  age_weight : ℚ
  location_score : ℚ
  location_weight : ℚ
  family_score : ℚ
  family_weight : ℚ
  religious_score : ℚ
  religious_weight : ℚ
  education_score : ℚ
  education_weight : ℚ
  lifestyle_score : ℚ
  lifestyle_weight : ℚ
  overall_score : ℚ
  deal_breaker_penalty : ℚ
  total_weight : ℚ
deriving DecidableEq, Repr

/-- `calculate_compatibility_score` from `utils/matching.py` (lines 10-114). -/
def calculate_compatibility_score (user1_profile : UserProfile) (user1_preferences : UserPreferences)
    (user2_profile : UserProfile) (user2_preferences : UserPreferences) : CompatibilityResult :=
  let age_score := calculate_age_compatibility user1_profile user1_preferences user2_profile user2_preferences
  let age_weight := get_importance_weight user1_preferences.age_importance +
    get_importance_weight user2_preferences.age_importance
  let location_score := calculate_location_compatibility user1_profile user1_preferences user2_profile user2_preferences
  let location_weight := get_importance_weight user1_preferences.location_importance +
    get_importance_weight user2_preferences.location_importance
  let family_score := calculate_family_compatibility user1_profile user1_preferences user2_profile user2_preferences
  let family_weight : ℚ := 10.0
  let religious_score := calculate_religious_compatibility user1_profile user1_preferences user2_profile user2_preferences
  let religious_weight := get_importance_weight user1_preferences.religious_importance +
    get_importance_weight user2_preferences.religious_importance
  let education_score := calculate_education_compatibility user1_profile user1_preferences user2_profile user2_preferences
  let education_weight := get_importance_weight user1_preferences.education_importance +
    get_importance_weight user2_preferences.education_importance
  let lifestyle_score := calculate_lifestyle_compatibility user1_profile user1_preferences user2_profile user2_preferences
  let lifestyle_weight : ℚ := 3.0
  let total_weight := age_weight + location_weight + family_weight + religious_weight +
    education_weight + lifestyle_weight
  let overall_score :=
    if total_weight > 0 then
      (age_score * age_weight + location_score * location_weight + family_score * family_weight +
        religious_score * religious_weight + education_score * education_weight +
        lifestyle_score * lifestyle_weight) / total_weight
    else 0.0
  let deal_breaker_penalty := check_deal_breakers user1_profile user1_preferences user2_profile user2_preferences
  let overall_score := overall_score * (1 - deal_breaker_penalty)
  { compatibility_score := round3 overall_score
    age_score := age_score, age_weight := age_weight
    location_score := location_score, location_weight := location_weight
    family_score := family_score, family_weight := family_weight
    religious_score := religious_score, religious_weight := religious_weight
    education_score := education_score, education_weight := education_weight
    lifestyle_score := lifestyle_score, lifestyle_weight := lifestyle_weight
    overall_score := overall_score
    deal_breaker_penalty := deal_breaker_penalty
    total_weight := total_weight }

/-- A UTC timestamp, modelled as a calendar day (`day`, as in Python
`datetime.date()`) plus a time-of-day offset.  Ordered lexicographically. -/
structure DateTime where
  day : ℤ
  tod : ℚ
deriving DecidableEq, Repr

/-- `datetime.date()`: the calendar-day part of a timestamp. -/
def DateTime.date (t : DateTime) : ℤ := t.day

/-- Strict order on timestamps (`<` on Python datetimes). -/
def DateTime.lt (a b : DateTime) : Prop :=
  a.day < b.day ∨ (a.day = b.day ∧ a.tod < b.tod)

instance : DecidablePred fun p : DateTime × DateTime => DateTime.lt p.1 p.2 :=
  fun p => by unfold DateTime.lt; infer_instance

instance (a b : DateTime) : Decidable (DateTime.lt a b) := by
  unfold DateTime.lt; infer_instance

/-- `SubscriptionPlan` from `models/user.py`. -/
inductive SubscriptionPlan where
  | FREE
  | PREMIUM_MONTHLY
  | PREMIUM_ANNUAL
  | LIFETIME
deriving DecidableEq, Repr

/-- The fields of `User` (`models/user.py`) consumed by the quota gate. -/
structure User where
  subscription_plan : SubscriptionPlan
  subscription_expires : Option DateTime
  daily_matches_used : ℕ
  daily_messages_sent : ℕ
  last_daily_reset : Option DateTime
deriving DecidableEq, Repr

/-- `User.is_premium` from `models/user.py` (lines 153-160).  The implicit
`datetime.utcnow()` is passed explicitly as `now`. -/
def User.is_premium (u : User) (now : DateTime) : Bool :=
  if u.subscription_plan = SubscriptionPlan.FREE then false
  else if u.subscription_plan = SubscriptionPlan.LIFETIME then true
  else match u.subscription_expires with
    | none => false
    | some e => DateTime.lt now e

/-- `User.reset_daily_limits` from `models/user.py` (lines 178-186): lazily
zeroes both daily counters and stamps `last_daily_reset` when the stored reset
date differs from the date of today. -/
def User.reset_daily_limits (u : User) (now : DateTime) : User :=
  let today := now.date
  let last_reset := u.last_daily_reset.map DateTime.date
  if last_reset ≠ some today then
    { u with daily_matches_used := 0, daily_messages_sent := 0, last_daily_reset := some now }
  else u

/-- `User.can_send_match` from `models/user.py` (lines 188-192): runs the lazy
reset, then compares the counter against the tier ceiling (50 premium, 10 free). -/
def User.can_send_match (u : User) (now : DateTime) : Bool :=
  let u2 := u.reset_daily_limits now
  let max_matches : ℕ := if u2.is_premium now then 50 else 10
  u2.daily_matches_used < max_matches

/-- `MatchStatus` from `models/match.py`. -/
inductive MatchStatus where
  | PENDING
  | MATCHED
  | DECLINED
  | EXPIRED
  | BLOCKED
  | UNMATCHED
deriving DecidableEq, Repr

/-- The terminal statuses, per the state-machine closure property of the spec. -/
def MatchStatus.isTerminal (s : MatchStatus) : Bool :=
  s = MatchStatus.DECLINED ∨ s = MatchStatus.EXPIRED ∨
    s = MatchStatus.BLOCKED ∨ s = MatchStatus.UNMATCHED

/-- The fields of `Match` (`models/match.py`) touched by lifecycle transitions. -/
structure MatchRecord where
  sender_id : ℕ
  receiver_id : ℕ
  status : MatchStatus
  matched_at : Option DateTime
  receiver_responded_at : Option DateTime
  expires_at : Option DateTime
deriving DecidableEq, Repr

/-- The `InvalidTransitionError` of the error taxonomy of the engine. -/
inductive TransitionError where
  | InvalidTransitionError
deriving DecidableEq, Repr

/-- Modelled from the spec: the file `models/match.py` of the repository declares only the
`MatchStatus` enum and the `Match` columns; the transition operation `respond`
is not in the source tree.  Per the spec, `respond(match, receiver, accept)` is
only valid from PENDING and only by the declared receiver; accept yields
MATCHED (setting `matched_at`), decline yields DECLINED; otherwise it fails
with `InvalidTransitionError`. -/
def respond (m : MatchRecord) (receiver : ℕ) (accept : Bool) (now : DateTime) :
    Except TransitionError MatchRecord :=
  if m.status = MatchStatus.PENDING ∧ receiver = m.receiver_id then
    if accept then
      Except.ok { m with
        status := MatchStatus.MATCHED
        matched_at := some now
        receiver_responded_at := some now }
    else
      Except.ok { m with status := MatchStatus.DECLINED, receiver_responded_at := some now }
  else
    Except.error TransitionError.InvalidTransitionError

/-- Modelled from the spec: `block(match, blocker)` is missing from the source
tree; per the spec it is valid from PENDING or MATCHED and transitions to
BLOCKED. -/
def block (m : MatchRecord) (blocker : ℕ) : Except TransitionError MatchRecord :=
  if m.status = MatchStatus.PENDING ∨ m.status = MatchStatus.MATCHED then
    Except.ok { m with status := MatchStatus.BLOCKED }
  else
    Except.error TransitionError.InvalidTransitionError

/-- Modelled from the spec: `unmatch(match, requester)` is missing from the
source tree; per the spec it is valid only from MATCHED and transitions to
UNMATCHED. -/
def unmatch (m : MatchRecord) (requester : ℕ) : Except TransitionError MatchRecord :=
  if m.status = MatchStatus.MATCHED then
    Except.ok { m with status := MatchStatus.UNMATCHED }
  else
    Except.error TransitionError.InvalidTransitionError

/-- A profile whose only lifestyle attribute is smoking "never". -/
def smokerNeverProfile : UserProfile :=
  { age := 30, location_city := "Springfield", location_state := "IL",
    religious_views := none, education_level := none, smoking := some "never",
    drinking := none, exercise_frequency := none, children_timeline := none,
    desired_children_count := none, parenting_philosophy := none, relationship_timeline := none }

/-- A profile whose only lifestyle attribute is smoking "socially". -/
def smokerSociallyProfile : UserProfile :=
  { age := 30, location_city := "Springfield", location_state := "IL",
    religious_views := none, education_level := none, smoking := some "socially",
    drinking := none, exercise_frequency := none, children_timeline := none,
    desired_children_count := none, parenting_philosophy := none, relationship_timeline := none }

/-- Default-importance preferences used as a neutral evaluation point. -/
def neutralPrefs : UserPreferences :=
  { min_age := 25, max_age := 35, age_importance := ImportanceLevel.IMPORTANT,
    location_importance := ImportanceLevel.IMPORTANT, willing_to_relocate := false,
    religious_importance := ImportanceLevel.IMPORTANT,
    education_importance := ImportanceLevel.SOMEWHAT_IMPORTANT,
    children_timeline_importance := ImportanceLevel.VERY_IMPORTANT }

/-- Midnight of calendar day `n`. -/
def dayN (n : ℤ) : DateTime := { day := n, tod := 0 }

/-- A free-tier user at the free ceiling whose counters were last reset today
(day 100). -/
def freeUserAtCeiling : User :=
  { subscription_plan := SubscriptionPlan.FREE, subscription_expires := none,
    daily_matches_used := 10, daily_messages_sent := 0,
    last_daily_reset := some (dayN 100) }

/-- A free-tier user whose counters were last reset yesterday (day 99). -/
def staleUser : User :=
  { subscription_plan := SubscriptionPlan.FREE, subscription_expires := none,
    daily_matches_used := 10, daily_messages_sent := 7,
    last_daily_reset := some (dayN 99) }

/-- A match already declined by its receiver. -/
def declinedMatch : MatchRecord :=
  { sender_id := 1, receiver_id := 2, status := MatchStatus.DECLINED,
    matched_at := none, receiver_responded_at := none, expires_at := none }

/-- A pending match awaiting a response from its receiver. -/
def pendingMatch : MatchRecord :=
  { sender_id := 1, receiver_id := 2, status := MatchStatus.PENDING,
    matched_at := none, receiver_responded_at := none, expires_at := none }

/-- A 45-year-old profile, outside the neutral-preference range [25, 35]. -/
def olderProfile : UserProfile :=
  { age := 45, location_city := "Springfield", location_state := "IL",
    religious_views := none, education_level := none, smoking := none,
    drinking := none, exercise_frequency := none, children_timeline := none,
    desired_children_count := none, parenting_philosophy := none, relationship_timeline := none }

/-- Preferences marking age as a deal-breaker with range [25, 35]. -/
def ageDealBreakerPrefs : UserPreferences :=
  { neutralPrefs with age_importance := ImportanceLevel.DEAL_BREAKER }

lemma age_compat_bounds (p1 : UserProfile) (q1 : UserPreferences) (p2 : UserProfile) (q2 : UserPreferences) :
    0 ≤ calculate_age_compatibility p1 q1 p2 q2 ∧ calculate_age_compatibility p1 q1 p2 q2 ≤ 1 := by
  simp only [calculate_age_compatibility]
  split_ifs <;> norm_num

lemma family_compat_bounds (p1 : UserProfile) (q1 : UserPreferences) (p2 : UserProfile) (q2 : UserPreferences) :
    0 ≤ calculate_family_compatibility p1 q1 p2 q2 ∧ calculate_family_compatibility p1 q1 p2 q2 ≤ 1 := by
  simp only [calculate_family_compatibility]
  split_ifs <;> norm_num



lemma location_compat_bounds (p1 : UserProfile) (q1 : UserPreferences) (p2 : UserProfile) (q2 : UserPreferences) :
    0 ≤ calculate_location_compatibility p1 q1 p2 q2 ∧ calculate_location_compatibility p1 q1 p2 q2 ≤ 1 := by
  simp only [calculate_location_compatibility]
  split_ifs <;> norm_num

lemma religious_compat_bounds (p1 : UserProfile) (q1 : UserPreferences) (p2 : UserProfile) (q2 : UserPreferences) :
    0 ≤ calculate_religious_compatibility p1 q1 p2 q2 ∧ calculate_religious_compatibility p1 q1 p2 q2 ≤ 1 := by
  simp only [calculate_religious_compatibility]
  rcases p1.religious_views with _ | v1 <;> rcases p2.religious_views with _ | v2 <;>
    simp only [] <;> try norm_num
  split_ifs <;> norm_num

lemma education_compat_bounds (p1 : UserProfile) (q1 : UserPreferences) (p2 : UserProfile) (q2 : UserPreferences) :
    0 ≤ calculate_education_compatibility p1 q1 p2 q2 ∧ calculate_education_compatibility p1 q1 p2 q2 ≤ 1 := by
  simp only [calculate_education_compatibility]
  rcases p1.education_level with _ | e1 <;> rcases p2.education_level with _ | e2 <;>
    simp only [] <;> try norm_num
  split_ifs <;> norm_num

lemma lifestyle_compat_bounds (p1 : UserProfile) (q1 : UserPreferences) (p2 : UserProfile) (q2 : UserPreferences) :
    0 ≤ calculate_lifestyle_compatibility p1 q1 p2 q2 ∧ calculate_lifestyle_compatibility p1 q1 p2 q2 ≤ 1 := by
  simp only [calculate_lifestyle_compatibility]
  split_ifs <;> norm_num

lemma importance_weight_ge_one (l : ImportanceLevel) : 1 ≤ get_importance_weight l := by
  cases l <;> norm_num [get_importance_weight]

lemma importance_weight_le_five (l : ImportanceLevel) : get_importance_weight l ≤ 5 := by
  cases l <;> norm_num [get_importance_weight]

lemma check_deal_breakers_mem (p1 : UserProfile) (q1 : UserPreferences) (p2 : UserProfile) (q2 : UserPreferences) :
    check_deal_breakers p1 q1 p2 q2 = 0 ∨ check_deal_breakers p1 q1 p2 q2 = 0.8 ∨
      check_deal_breakers p1 q1 p2 q2 = 1 := by
  simp only [check_deal_breakers]
  split_ifs <;> norm_num

lemma check_deal_breakers_eq_max (p1 : UserProfile) (q1 : UserPreferences) (p2 : UserProfile) (q2 : UserPreferences) :
    check_deal_breakers p1 q1 p2 q2 =
      max (max (if q1.age_importance = ImportanceLevel.DEAL_BREAKER ∧
              ¬(q1.min_age ≤ p2.age ∧ p2.age ≤ q1.max_age) then (1 : ℚ) else 0)
            (if q2.age_importance = ImportanceLevel.DEAL_BREAKER ∧
              ¬(q2.min_age ≤ p1.age ∧ p1.age ≤ q2.max_age) then (1 : ℚ) else 0))
        (max (if q1.children_timeline_importance = ImportanceLevel.DEAL_BREAKER ∧
              p1.children_timeline ≠ p2.children_timeline then (0.8 : ℚ) else 0)
            (if q2.children_timeline_importance = ImportanceLevel.DEAL_BREAKER ∧
              p1.children_timeline ≠ p2.children_timeline then (0.8 : ℚ) else 0)) := by
  simp only [check_deal_breakers]
  split_ifs <;> norm_num [max_def]

lemma age_compat_comm (p1 : UserProfile) (q1 : UserPreferences) (p2 : UserProfile) (q2 : UserPreferences) :
    calculate_age_compatibility p1 q1 p2 q2 = calculate_age_compatibility p2 q2 p1 q1 := by
  simp only [calculate_age_compatibility]
  by_cases h1 : q1.min_age ≤ p2.age ∧ p2.age ≤ q1.max_age <;>
    by_cases h2 : q2.min_age ≤ p1.age ∧ p1.age ≤ q2.max_age <;>
      simp [h1, h2]

lemma location_compat_comm (p1 : UserProfile) (q1 : UserPreferences) (p2 : UserProfile) (q2 : UserPreferences) :
    calculate_location_compatibility p1 q1 p2 q2 = calculate_location_compatibility p2 q2 p1 q1 := by
  simp only [calculate_location_compatibility,
    show (p2.location_city = p1.location_city) ↔ (p1.location_city = p2.location_city) from eq_comm,
    show (p2.location_state = p1.location_state) ↔ (p1.location_state = p2.location_state) from eq_comm,
    Bool.or_comm q2.willing_to_relocate q1.willing_to_relocate]

lemma family_compat_comm (p1 : UserProfile) (q1 : UserPreferences) (p2 : UserProfile) (q2 : UserPreferences) :
    calculate_family_compatibility p1 q1 p2 q2 = calculate_family_compatibility p2 q2 p1 q1 := by
  simp only [calculate_family_compatibility,
    Bool.and_comm (truthy p2.children_timeline) (truthy p1.children_timeline),
    Bool.and_comm (truthy p2.desired_children_count) (truthy p1.desired_children_count),
    Bool.and_comm p2.parenting_philosophy.isSome p1.parenting_philosophy.isSome,
    Bool.and_comm (truthy p2.relationship_timeline) (truthy p1.relationship_timeline),
    show (p2.children_timeline = p1.children_timeline) ↔
      (p1.children_timeline = p2.children_timeline) from eq_comm,
    show (p2.desired_children_count = p1.desired_children_count) ↔
      (p1.desired_children_count = p2.desired_children_count) from eq_comm,
    show (p2.parenting_philosophy = p1.parenting_philosophy) ↔
      (p1.parenting_philosophy = p2.parenting_philosophy) from eq_comm,
    show (p2.relationship_timeline = p1.relationship_timeline) ↔
      (p1.relationship_timeline = p2.relationship_timeline) from eq_comm]

lemma religious_compat_comm (p1 : UserProfile) (q1 : UserPreferences) (p2 : UserProfile) (q2 : UserPreferences) :
    calculate_religious_compatibility p1 q1 p2 q2 = calculate_religious_compatibility p2 q2 p1 q1 := by
  simp only [calculate_religious_compatibility]
  rcases p1.religious_views with _ | v1 <;> rcases p2.religious_views with _ | v2 <;>
    try rfl
  simp only [compatible_pairs, List.any_cons, List.any_nil,
    show (v2 = v1) ↔ (v1 = v2) from eq_comm,
    Bool.and_comm (v2.value == "christian" || v2.value == "catholic")
      (v1.value == "christian" || v1.value == "catholic"),
    Bool.and_comm (v2.value == "spiritual" || v2.value == "buddhist")
      (v1.value == "spiritual" || v1.value == "buddhist"),
    Bool.and_comm (v2.value == "agnostic" || v2.value == "atheist")
      (v1.value == "agnostic" || v1.value == "atheist")]

lemma education_compat_comm (p1 : UserProfile) (q1 : UserPreferences) (p2 : UserProfile) (q2 : UserPreferences) :
    calculate_education_compatibility p1 q1 p2 q2 = calculate_education_compatibility p2 q2 p1 q1 := by
  simp only [calculate_education_compatibility]
  rcases p1.education_level with _ | e1 <;> rcases p2.education_level with _ | e2 <;>
    try rfl
  simp only [abs_sub_comm (education_hierarchy e2.value) (education_hierarchy e1.value)]

lemma lifestyle_compat_comm (p1 : UserProfile) (q1 : UserPreferences) (p2 : UserProfile) (q2 : UserPreferences) :
    calculate_lifestyle_compatibility p1 q1 p2 q2 = calculate_lifestyle_compatibility p2 q2 p1 q1 := by
  simp only [calculate_lifestyle_compatibility,
    Bool.and_comm (truthy p2.smoking) (truthy p1.smoking),
    Bool.and_comm (truthy p2.drinking) (truthy p1.drinking),
    Bool.and_comm (truthy p2.exercise_frequency) (truthy p1.exercise_frequency),
    show (p2.smoking = p1.smoking) ↔ (p1.smoking = p2.smoking) from eq_comm,
    show (p2.drinking = p1.drinking) ↔ (p1.drinking = p2.drinking) from eq_comm,
    show (p2.exercise_frequency = p1.exercise_frequency) ↔
      (p1.exercise_frequency = p2.exercise_frequency) from eq_comm,
    show (p2.smoking = some "never" ∨ p1.smoking = some "never") ↔
      (p1.smoking = some "never" ∨ p2.smoking = some "never") from or_comm,
    show (p2.drinking = some "never" ∨ p1.drinking = some "never") ↔
      (p1.drinking = some "never" ∨ p2.drinking = some "never") from or_comm,
    show (p2.drinking = some "regularly" ∨ p1.drinking = some "regularly") ↔
      (p1.drinking = some "regularly" ∨ p2.drinking = some "regularly") from or_comm]

lemma check_deal_breakers_comm (p1 : UserProfile) (q1 : UserPreferences) (p2 : UserProfile) (q2 : UserPreferences) :
    check_deal_breakers p1 q1 p2 q2 = check_deal_breakers p2 q2 p1 q1 := by
  simp only [check_deal_breakers,
    show (p2.children_timeline ≠ p1.children_timeline) ↔
      (p1.children_timeline ≠ p2.children_timeline) from ne_comm]
  split_ifs <;> norm_num [max_def]

lemma round3_mono {x y : ℚ} (h : x ≤ y) : round3 x ≤ round3 y := by
  unfold round3
  have hr : round (x * 1000) ≤ round (y * 1000) := by
    rw [round_eq, round_eq]
    exact Int.floor_le_floor (by linarith)
  have : ((round (x * 1000) : ℤ) : ℚ) ≤ ((round (y * 1000) : ℤ) : ℚ) := by exact_mod_cast hr
  linarith

lemma round3_zero : round3 0 = 0 := by
  simp [round3]

lemma round3_one : round3 1 = 1 := by
  unfold round3
  rw [one_mul, show ((1000:ℚ)) = ((1000:ℤ):ℚ) by norm_num, round_intCast]
  norm_num

lemma round3_bounds {x : ℚ} (h0 : 0 ≤ x) (h1 : x ≤ 1) : 0 ≤ round3 x ∧ round3 x ≤ 1 := by
  constructor
  · have := round3_mono h0
    rwa [round3_zero] at this
  · have := round3_mono h1
    rwa [round3_one] at this

lemma weighted_overall_bounds (A L F R E Y WA WL WR WE P : ℚ)
    (ha0 : 0 ≤ A) (ha1 : A ≤ 1) (hl0 : 0 ≤ L) (hl1 : L ≤ 1)
    (hf0 : 0 ≤ F) (hf1 : F ≤ 1) (hr0 : 0 ≤ R) (hr1 : R ≤ 1)
    (he0 : 0 ≤ E) (he1 : E ≤ 1) (hy0 : 0 ≤ Y) (hy1 : Y ≤ 1)
    (hWA : 2 ≤ WA) (hWL : 2 ≤ WL) (hWR : 2 ≤ WR) (hWE : 2 ≤ WE)
    (hpen : P = 0 ∨ P = 0.8 ∨ P = 1) :
    0 ≤ (if WA + WL + 10.0 + WR + WE + 3.0 > 0 then
        (A * WA + L * WL + F * 10.0 + R * WR + E * WE + Y * 3.0) /
          (WA + WL + 10.0 + WR + WE + 3.0)
      else 0.0) * (1 - P) ∧
    (if WA + WL + 10.0 + WR + WE + 3.0 > 0 then
        (A * WA + L * WL + F * 10.0 + R * WR + E * WE + Y * 3.0) /
          (WA + WL + 10.0 + WR + WE + 3.0)
      else 0.0) * (1 - P) ≤ 1 := by
  have hW : (0:ℚ) < WA + WL + 10.0 + WR + WE + 3.0 := by norm_num; linarith
  rw [if_pos hW]
  have hS0 : (0:ℚ) ≤ A * WA + L * WL + F * 10.0 + R * WR + E * WE + Y * 3.0 := by
    have h1 := mul_nonneg ha0 (by linarith : (0:ℚ) ≤ WA)
    have h2 := mul_nonneg hl0 (by linarith : (0:ℚ) ≤ WL)
    have h3 := mul_nonneg hf0 (by norm_num : (0:ℚ) ≤ (10.0:ℚ))
    have h4 := mul_nonneg hr0 (by linarith : (0:ℚ) ≤ WR)
    have h5 := mul_nonneg he0 (by linarith : (0:ℚ) ≤ WE)
    have h6 := mul_nonneg hy0 (by norm_num : (0:ℚ) ≤ (3.0:ℚ))
    linarith
  have hSW : A * WA + L * WL + F * 10.0 + R * WR + E * WE + Y * 3.0 ≤
      WA + WL + 10.0 + WR + WE + 3.0 := by
    have h1 := mul_le_of_le_one_left (by linarith : (0:ℚ) ≤ WA) ha1
    have h2 := mul_le_of_le_one_left (by linarith : (0:ℚ) ≤ WL) hl1
    have h3 := mul_le_of_le_one_left (by norm_num : (0:ℚ) ≤ (10.0:ℚ)) hf1
    have h4 := mul_le_of_le_one_left (by linarith : (0:ℚ) ≤ WR) hr1
    have h5 := mul_le_of_le_one_left (by linarith : (0:ℚ) ≤ WE) he1
    have h6 := mul_le_of_le_one_left (by norm_num : (0:ℚ) ≤ (3.0:ℚ)) hy1
    linarith
  have hdiv0 : (0:ℚ) ≤ (A * WA + L * WL + F * 10.0 + R * WR + E * WE + Y * 3.0) /
      (WA + WL + 10.0 + WR + WE + 3.0) := div_nonneg hS0 hW.le
  have hdiv1 : (A * WA + L * WL + F * 10.0 + R * WR + E * WE + Y * 3.0) /
      (WA + WL + 10.0 + WR + WE + 3.0) ≤ 1 := (div_le_one hW).mpr hSW
  rcases hpen with hp | hp | hp <;> rw [hp] <;> constructor <;> nlinarith

lemma overall_score_bounds (p1 : UserProfile) (q1 : UserPreferences) (p2 : UserProfile) (q2 : UserPreferences) :
    0 ≤ (calculate_compatibility_score p1 q1 p2 q2).overall_score ∧
      (calculate_compatibility_score p1 q1 p2 q2).overall_score ≤ 1 := by
  obtain ⟨ha0, ha1⟩ := age_compat_bounds p1 q1 p2 q2
  obtain ⟨hl0, hl1⟩ := location_compat_bounds p1 q1 p2 q2
  obtain ⟨hf0, hf1⟩ := family_compat_bounds p1 q1 p2 q2
  obtain ⟨hr0, hr1⟩ := religious_compat_bounds p1 q1 p2 q2
  obtain ⟨he0, he1⟩ := education_compat_bounds p1 q1 p2 q2
  obtain ⟨hy0, hy1⟩ := lifestyle_compat_bounds p1 q1 p2 q2
  have hWA : (2:ℚ) ≤ get_importance_weight q1.age_importance + get_importance_weight q2.age_importance := by
    have := importance_weight_ge_one q1.age_importance
    have := importance_weight_ge_one q2.age_importance
    linarith
  have hWL : (2:ℚ) ≤ get_importance_weight q1.location_importance + get_importance_weight q2.location_importance := by
    have := importance_weight_ge_one q1.location_importance
    have := importance_weight_ge_one q2.location_importance
    linarith
  have hWR : (2:ℚ) ≤ get_importance_weight q1.religious_importance + get_importance_weight q2.religious_importance := by
    have := importance_weight_ge_one q1.religious_importance
    have := importance_weight_ge_one q2.religious_importance
    linarith
  have hWE : (2:ℚ) ≤ get_importance_weight q1.education_importance + get_importance_weight q2.education_importance := by
    have := importance_weight_ge_one q1.education_importance
    have := importance_weight_ge_one q2.education_importance
    linarith
  have hpen := check_deal_breakers_mem p1 q1 p2 q2
  simp only [calculate_compatibility_score]
  exact weighted_overall_bounds _ _ _ _ _ _ _ _ _ _ _
    ha0 ha1 hl0 hl1 hf0 hf1 hr0 hr1 he0 he1 hy0 hy1 hWA hWL hWR hWE hpen

lemma result_age_score (p1 : UserProfile) (q1 : UserPreferences) (p2 : UserProfile) (q2 : UserPreferences) :
    (calculate_compatibility_score p1 q1 p2 q2).age_score = calculate_age_compatibility p1 q1 p2 q2 := by
  simp only [calculate_compatibility_score]

lemma result_deal_breaker_penalty (p1 : UserProfile) (q1 : UserPreferences) (p2 : UserProfile) (q2 : UserPreferences) :
    (calculate_compatibility_score p1 q1 p2 q2).deal_breaker_penalty = check_deal_breakers p1 q1 p2 q2 := by
  simp only [calculate_compatibility_score]

lemma result_compatibility_score (p1 : UserProfile) (q1 : UserPreferences) (p2 : UserProfile) (q2 : UserPreferences) :
    (calculate_compatibility_score p1 q1 p2 q2).compatibility_score =
      round3 ((calculate_compatibility_score p1 q1 p2 q2).overall_score) := by
  simp only [calculate_compatibility_score]

lemma result_total_weight (p1 : UserProfile) (q1 : UserPreferences) (p2 : UserProfile) (q2 : UserPreferences) :
    (calculate_compatibility_score p1 q1 p2 q2).total_weight =
      (get_importance_weight q1.age_importance + get_importance_weight q2.age_importance) +
      (get_importance_weight q1.location_importance + get_importance_weight q2.location_importance) +
      10.0 +
      (get_importance_weight q1.religious_importance + get_importance_weight q2.religious_importance) +
      (get_importance_weight q1.education_importance + get_importance_weight q2.education_importance) +
      3.0 := by
  simp only [calculate_compatibility_score]

lemma total_weight_pos (p1 : UserProfile) (q1 : UserPreferences) (p2 : UserProfile) (q2 : UserPreferences) :
    0 < (calculate_compatibility_score p1 q1 p2 q2).total_weight := by
  rw [result_total_weight]
  have h1 := importance_weight_ge_one q1.age_importance
  have h2 := importance_weight_ge_one q2.age_importance
  have h3 := importance_weight_ge_one q1.location_importance
  have h4 := importance_weight_ge_one q2.location_importance
  have h5 := importance_weight_ge_one q1.religious_importance
  have h6 := importance_weight_ge_one q2.religious_importance
  have h7 := importance_weight_ge_one q1.education_importance
  have h8 := importance_weight_ge_one q2.education_importance
  norm_num
  linarith

lemma overall_score_formula (p1 : UserProfile) (q1 : UserPreferences) (p2 : UserProfile) (q2 : UserPreferences) :
    (calculate_compatibility_score p1 q1 p2 q2).overall_score =
      ((calculate_compatibility_score p1 q1 p2 q2).age_score *
          (calculate_compatibility_score p1 q1 p2 q2).age_weight +
        (calculate_compatibility_score p1 q1 p2 q2).location_score *
          (calculate_compatibility_score p1 q1 p2 q2).location_weight +
        (calculate_compatibility_score p1 q1 p2 q2).family_score *
          (calculate_compatibility_score p1 q1 p2 q2).family_weight +
        (calculate_compatibility_score p1 q1 p2 q2).religious_score *
          (calculate_compatibility_score p1 q1 p2 q2).religious_weight +
        (calculate_compatibility_score p1 q1 p2 q2).education_score *
          (calculate_compatibility_score p1 q1 p2 q2).education_weight +
        (calculate_compatibility_score p1 q1 p2 q2).lifestyle_score *
          (calculate_compatibility_score p1 q1 p2 q2).lifestyle_weight) /
        (calculate_compatibility_score p1 q1 p2 q2).total_weight *
        (1 - (calculate_compatibility_score p1 q1 p2 q2).deal_breaker_penalty) := by
  have hpos := total_weight_pos p1 q1 p2 q2
  rw [result_total_weight] at hpos
  simp only [calculate_compatibility_score]
  rw [if_pos hpos]

/-- C1: for every profile/preference input, the `compatibility_score` field
returned by `calculate_compatibility_score` lies in the closed interval
`[0, 1]`. -/
theorem compatibility_score_in_unit_interval (p1 : UserProfile) (q1 : UserPreferences)
    (p2 : UserProfile) (q2 : UserPreferences) :
    0 ≤ (calculate_compatibility_score p1 q1 p2 q2).compatibility_score ∧
      (calculate_compatibility_score p1 q1 p2 q2).compatibility_score ≤ 1 := by
  obtain ⟨h0, h1⟩ := overall_score_bounds p1 q1 p2 q2
  rw [result_compatibility_score]
  exact round3_bounds h0 h1

/-- C7: the weighted average of the aggregator is guarded (`overall_score` is `0.0`
when the total weight is zero by definition) and the zero branch of the guard is
unreachable: the total weight is always positive, so the overall score is
always the genuine weighted quotient times the penalty factor. -/
theorem division_guard_unreachable (p1 : UserProfile) (q1 : UserPreferences)
    (p2 : UserProfile) (q2 : UserPreferences) :
    0 < (calculate_compatibility_score p1 q1 p2 q2).total_weight ∧
    (calculate_compatibility_score p1 q1 p2 q2).overall_score =
      ((calculate_compatibility_score p1 q1 p2 q2).age_score *
          (calculate_compatibility_score p1 q1 p2 q2).age_weight +
        (calculate_compatibility_score p1 q1 p2 q2).location_score *
          (calculate_compatibility_score p1 q1 p2 q2).location_weight +
        (calculate_compatibility_score p1 q1 p2 q2).family_score *
          (calculate_compatibility_score p1 q1 p2 q2).family_weight +
        (calculate_compatibility_score p1 q1 p2 q2).religious_score *
          (calculate_compatibility_score p1 q1 p2 q2).religious_weight +
        (calculate_compatibility_score p1 q1 p2 q2).education_score *
          (calculate_compatibility_score p1 q1 p2 q2).education_weight +
        (calculate_compatibility_score p1 q1 p2 q2).lifestyle_score *
          (calculate_compatibility_score p1 q1 p2 q2).lifestyle_weight) /
        (calculate_compatibility_score p1 q1 p2 q2).total_weight *
        (1 - (calculate_compatibility_score p1 q1 p2 q2).deal_breaker_penalty) :=
  ⟨total_weight_pos p1 q1 p2 q2, overall_score_formula p1 q1 p2 q2⟩

/-- C9: the numeric compatibility result is symmetric in the two parties:
swapping the two (profile, preferences) pairs leaves every factor score,
factor weight, the deal-breaker penalty, the overall score and the rounded
`compatibility_score` unchanged. -/
theorem compatibility_score_symmetric (p1 : UserProfile) (q1 : UserPreferences)
    (p2 : UserProfile) (q2 : UserPreferences) :
    calculate_compatibility_score p1 q1 p2 q2 = calculate_compatibility_score p2 q2 p1 q1 := by
  simp only [calculate_compatibility_score,
    age_compat_comm p2 q2 p1 q1, location_compat_comm p2 q2 p1 q1,
    family_compat_comm p2 q2 p1 q1, religious_compat_comm p2 q2 p1 q1,
    education_compat_comm p2 q2 p1 q1, lifestyle_compat_comm p2 q2 p1 q1,
    check_deal_breakers_comm p2 q2 p1 q1,
    add_comm (get_importance_weight q2.age_importance) (get_importance_weight q1.age_importance),
    add_comm (get_importance_weight q2.location_importance) (get_importance_weight q1.location_importance),
    add_comm (get_importance_weight q2.religious_importance) (get_importance_weight q1.religious_importance),
    add_comm (get_importance_weight q2.education_importance) (get_importance_weight q1.education_importance)]

/-- C2: the deal-breaker penalty is the maximum single penalty across the
triggered deal-breakers (1.0 per failed age range check, 0.8 per
children-timeline mismatch), never their sum; the final overall score is the
weighted average times `(1 - penalty)`; and an age deal-breaker whose range
check fails forces penalty 1.0 and a final score of 0.0. -/
theorem deal_breaker_penalty_max_and_veto (p1 : UserProfile) (q1 : UserPreferences)
    (p2 : UserProfile) (q2 : UserPreferences) :
    (calculate_compatibility_score p1 q1 p2 q2).deal_breaker_penalty =
      max (max (if q1.age_importance = ImportanceLevel.DEAL_BREAKER ∧
            ¬(q1.min_age ≤ p2.age ∧ p2.age ≤ q1.max_age) then (1 : ℚ) else 0)
          (if q2.age_importance = ImportanceLevel.DEAL_BREAKER ∧
            ¬(q2.min_age ≤ p1.age ∧ p1.age ≤ q2.max_age) then (1 : ℚ) else 0))
        (max (if q1.children_timeline_importance = ImportanceLevel.DEAL_BREAKER ∧
            p1.children_timeline ≠ p2.children_timeline then (0.8 : ℚ) else 0)
          (if q2.children_timeline_importance = ImportanceLevel.DEAL_BREAKER ∧
            p1.children_timeline ≠ p2.children_timeline then (0.8 : ℚ) else 0)) ∧
    (calculate_compatibility_score p1 q1 p2 q2).overall_score =
      ((calculate_compatibility_score p1 q1 p2 q2).age_score *
          (calculate_compatibility_score p1 q1 p2 q2).age_weight +
        (calculate_compatibility_score p1 q1 p2 q2).location_score *
          (calculate_compatibility_score p1 q1 p2 q2).location_weight +
        (calculate_compatibility_score p1 q1 p2 q2).family_score *
          (calculate_compatibility_score p1 q1 p2 q2).family_weight +
        (calculate_compatibility_score p1 q1 p2 q2).religious_score *
          (calculate_compatibility_score p1 q1 p2 q2).religious_weight +
        (calculate_compatibility_score p1 q1 p2 q2).education_score *
          (calculate_compatibility_score p1 q1 p2 q2).education_weight +
        (calculate_compatibility_score p1 q1 p2 q2).lifestyle_score *
          (calculate_compatibility_score p1 q1 p2 q2).lifestyle_weight) /
        (calculate_compatibility_score p1 q1 p2 q2).total_weight *
        (1 - (calculate_compatibility_score p1 q1 p2 q2).deal_breaker_penalty) ∧
    ((q1.age_importance = ImportanceLevel.DEAL_BREAKER ∧
        ¬(q1.min_age ≤ p2.age ∧ p2.age ≤ q1.max_age)) ∨
      (q2.age_importance = ImportanceLevel.DEAL_BREAKER ∧
        ¬(q2.min_age ≤ p1.age ∧ p1.age ≤ q2.max_age)) →
      (calculate_compatibility_score p1 q1 p2 q2).deal_breaker_penalty = 1 ∧
      (calculate_compatibility_score p1 q1 p2 q2).overall_score = 0 ∧
      (calculate_compatibility_score p1 q1 p2 q2).compatibility_score = 0) := by
  have hmax := check_deal_breakers_eq_max p1 q1 p2 q2
  have hmem := check_deal_breakers_mem p1 q1 p2 q2
  refine ⟨by rw [result_deal_breaker_penalty]; exact hmax, overall_score_formula p1 q1 p2 q2, ?_⟩
  intro h
  have hge : (1 : ℚ) ≤ check_deal_breakers p1 q1 p2 q2 := by
    rw [hmax]
    rcases h with h | h
    · exact le_trans (le_of_eq (if_pos h).symm) (le_trans (le_max_left _ _) (le_max_left _ _))
    · exact le_trans (le_of_eq (if_pos h).symm) (le_trans (le_max_right _ _) (le_max_left _ _))
  have hpen : check_deal_breakers p1 q1 p2 q2 = 1 := by
    rcases hmem with h' | h' | h'
    · exfalso; rw [h'] at hge; norm_num at hge
    · exfalso; rw [h'] at hge; norm_num at hge
    · exact h'
  have hover : (calculate_compatibility_score p1 q1 p2 q2).overall_score = 0 := by
    rw [overall_score_formula p1 q1 p2 q2, result_deal_breaker_penalty, hpen]
    ring
  refine ⟨by rw [result_deal_breaker_penalty]; exact hpen, hover, ?_⟩
  rw [result_compatibility_score, hover, round3_zero]

/-- C10: the deal-breaker penalty takes only the values 0, 0.8 and 1;
replacing the location/religious/education importance levels (the dimensions
other than age and children-timeline) by anything — including the deal-breaker
tier — never changes the penalty; the deal-breaker tier influences the
weighted average only through its weight 5.0. -/
theorem penalty_values_and_dimensions (p1 : UserProfile) (q1 : UserPreferences)
    (p2 : UserProfile) (q2 : UserPreferences) :
    ((calculate_compatibility_score p1 q1 p2 q2).deal_breaker_penalty = 0 ∨
      (calculate_compatibility_score p1 q1 p2 q2).deal_breaker_penalty = 0.8 ∨
      (calculate_compatibility_score p1 q1 p2 q2).deal_breaker_penalty = 1) ∧
    (∀ l1 l2 l3 m1 m2 m3 : ImportanceLevel,
      check_deal_breakers p1
          { q1 with location_importance := l1, religious_importance := l2, education_importance := l3 }
          p2
          { q2 with location_importance := m1, religious_importance := m2, education_importance := m3 } =
        check_deal_breakers p1 q1 p2 q2) ∧
    get_importance_weight ImportanceLevel.DEAL_BREAKER = 5 := by
  refine ⟨by rw [result_deal_breaker_penalty]; exact check_deal_breakers_mem p1 q1 p2 q2, ?_, by norm_num [get_importance_weight]⟩
  intro l1 l2 l3 m1 m2 m3
  rfl

/-- C5 counterexample: the top-tier (deal-breaker) importance weight is 5.0,
which lies outside the claimed interval [1.0, 4.0]. -/
theorem importance_weight_exceeds_four :
    get_importance_weight ImportanceLevel.DEAL_BREAKER = 5 ∧
      ¬(get_importance_weight ImportanceLevel.DEAL_BREAKER ≤ 4) := by
  norm_num [get_importance_weight]

/-- C5 amended: the numeric weight of every importance level lies in [1.0, 5.0]
(the four lower tiers weigh 1.0-4.0 and the deal-breaker tier weighs 5.0). -/
theorem importance_weight_bounds (l : ImportanceLevel) :
    1 ≤ get_importance_weight l ∧ get_importance_weight l ≤ 5 :=
  ⟨importance_weight_ge_one l, importance_weight_le_five l⟩

/-- C6: the numeric weights are strictly increasing in ordinal rank, and
exactly one importance level — the top tier, DEAL_BREAKER — carries the
deal-breaker flag. -/
theorem importance_weight_monotone_and_unique_flag :
    (∀ l1 l2 : ImportanceLevel, l1.rank < l2.rank →
      get_importance_weight l1 < get_importance_weight l2) ∧
    (∃! l : ImportanceLevel, l.deal_breaker_flag = true) ∧
    ImportanceLevel.deal_breaker_flag ImportanceLevel.DEAL_BREAKER = true ∧
    (∀ l : ImportanceLevel, l.rank ≤ ImportanceLevel.DEAL_BREAKER.rank) := by
  refine ⟨?_, ⟨ImportanceLevel.DEAL_BREAKER, by simp [ImportanceLevel.deal_breaker_flag], ?_⟩, by simp [ImportanceLevel.deal_breaker_flag], ?_⟩
  · intro l1 l2 h
    cases l1 <;> cases l2 <;>
      simp_all [ImportanceLevel.rank] <;> norm_num [get_importance_weight]
  · intro l hl
    cases l <;> simp_all [ImportanceLevel.deal_breaker_flag]
  · intro l; cases l <;> simp [ImportanceLevel.rank]

/-- C6 witness: a concrete strict rank pair with strictly increasing weight. -/
theorem importance_weight_monotone_witness :
    ImportanceLevel.NOT_IMPORTANT.rank < ImportanceLevel.DEAL_BREAKER.rank ∧
      get_importance_weight ImportanceLevel.NOT_IMPORTANT <
        get_importance_weight ImportanceLevel.DEAL_BREAKER :=
  ⟨by norm_num [ImportanceLevel.rank],
    importance_weight_monotone_and_unique_flag.1 ImportanceLevel.NOT_IMPORTANT
      ImportanceLevel.DEAL_BREAKER (by norm_num [ImportanceLevel.rank])⟩




/-- C4 counterexample: a smoking mismatch of "never" against "socially" — not
the "never"/"regularly" pairing — already scores 0.3, not a value in
[0.6, 0.7]. -/
theorem smoking_mismatch_scores_point_three :
    smokerNeverProfile.smoking = some "never" ∧
    smokerSociallyProfile.smoking = some "socially" ∧
    calculate_lifestyle_compatibility smokerNeverProfile neutralPrefs
      smokerSociallyProfile neutralPrefs = 0.3 ∧
    ¬((0.6 : ℚ) ≤ calculate_lifestyle_compatibility smokerNeverProfile neutralPrefs
      smokerSociallyProfile neutralPrefs) := by
  have h : calculate_lifestyle_compatibility smokerNeverProfile neutralPrefs
      smokerSociallyProfile neutralPrefs = 0.3 := by
    simp [calculate_lifestyle_compatibility, truthy, smokerNeverProfile, smokerSociallyProfile]
  refine ⟨rfl, rfl, h, ?_⟩
  rw [h]
  norm_num

/-- C4 amended: for a smoking mismatch (both values set, different), the
smoking sub-score is 0.3 exactly when at least one of the two values is
"never" — whatever the other value is — and every other mismatch scores 0.7,
which lies inside [0.6, 0.7].  The other lifestyle sub-factors are kept unset
so that the lifestyle score is exactly the smoking sub-score. -/
theorem smoking_subscore_mismatch (p1 : UserProfile) (q1 : UserPreferences)
    (p2 : UserProfile) (q2 : UserPreferences)
    (h1 : truthy p1.smoking = true) (h2 : truthy p2.smoking = true)
    (hne : p1.smoking ≠ p2.smoking)
    (hd1 : p1.drinking = none) (hd2 : p2.drinking = none)
    (he1 : p1.exercise_frequency = none) (he2 : p2.exercise_frequency = none) :
    (calculate_lifestyle_compatibility p1 q1 p2 q2 = 0.3 ↔
      (p1.smoking = some "never" ∨ p2.smoking = some "never")) ∧
    (¬(p1.smoking = some "never" ∨ p2.smoking = some "never") →
      calculate_lifestyle_compatibility p1 q1 p2 q2 = 0.7 ∧
      (0.6 : ℚ) ≤ calculate_lifestyle_compatibility p1 q1 p2 q2 ∧
      calculate_lifestyle_compatibility p1 q1 p2 q2 ≤ 0.7) := by
  have hval : calculate_lifestyle_compatibility p1 q1 p2 q2 =
      if p1.smoking = some "never" ∨ p2.smoking = some "never" then 0.3 else 0.7 := by
    simp only [calculate_lifestyle_compatibility, h1, h2, hd1, hd2, he1, he2,
      show truthy none = false from rfl]
    norm_num [hne]
  by_cases hn : p1.smoking = some "never" ∨ p2.smoking = some "never"
  · rw [hval, if_pos hn]
    exact ⟨by simp [hn], fun h => absurd hn h⟩
  · rw [hval, if_neg hn]
    refine ⟨⟨fun h => by norm_num at h, fun h => absurd h hn⟩, fun _ => ⟨rfl, by norm_num, le_refl _⟩⟩

/-- C4 witness: the amended statement applied at the concrete
never/socially mismatch. -/
theorem smoking_subscore_mismatch_witness :
    (calculate_lifestyle_compatibility smokerNeverProfile neutralPrefs
        smokerSociallyProfile neutralPrefs = 0.3 ↔
      (smokerNeverProfile.smoking = some "never" ∨
        smokerSociallyProfile.smoking = some "never")) ∧
    (¬(smokerNeverProfile.smoking = some "never" ∨
        smokerSociallyProfile.smoking = some "never") →
      calculate_lifestyle_compatibility smokerNeverProfile neutralPrefs
        smokerSociallyProfile neutralPrefs = 0.7 ∧
      (0.6 : ℚ) ≤ calculate_lifestyle_compatibility smokerNeverProfile neutralPrefs
        smokerSociallyProfile neutralPrefs ∧
      calculate_lifestyle_compatibility smokerNeverProfile neutralPrefs
        smokerSociallyProfile neutralPrefs ≤ 0.7) :=
  smoking_subscore_mismatch smokerNeverProfile neutralPrefs smokerSociallyProfile neutralPrefs
    (by simp [truthy, smokerNeverProfile]) (by simp [truthy, smokerSociallyProfile])
    (by simp [smokerNeverProfile, smokerSociallyProfile]) rfl rfl rfl rfl

/-- C3: a free-tier user at the free ceiling of 10 whose stored reset date is
today cannot send another match; and whenever the stored reset date is
strictly before today, the lazy reset of the quota check zeroes both daily counters
and stamps the reset date, so the check passes. -/
theorem quota_gate_block_and_rollover (u : User) (now : DateTime) :
    (u.is_premium now = false → u.daily_matches_used = 10 →
      u.last_daily_reset.map DateTime.date = some now.date →
      u.can_send_match now = false) ∧
    (∀ d : ℤ, u.last_daily_reset.map DateTime.date = some d → d < now.date →
      (u.reset_daily_limits now).daily_matches_used = 0 ∧
      (u.reset_daily_limits now).daily_messages_sent = 0 ∧
      (u.reset_daily_limits now).last_daily_reset = some now ∧
      u.can_send_match now = true) := by
  constructor
  · intro hprem hused hdate
    unfold User.can_send_match User.reset_daily_limits
    simp only [hdate, ne_eq, not_true_eq_false, if_false, ite_not]
    simp [hprem, hused]
  · intro d hd hlt
    have hne : u.last_daily_reset.map DateTime.date ≠ some now.date := by
      rw [hd]
      intro hcon
      rw [Option.some.injEq] at hcon
      omega
    have hreset : u.reset_daily_limits now =
        { u with daily_matches_used := 0, daily_messages_sent := 0, last_daily_reset := some now } := by
      unfold User.reset_daily_limits
      rw [if_pos hne]
    refine ⟨by rw [hreset], by rw [hreset], by rw [hreset], ?_⟩
    unfold User.can_send_match
    rw [hreset]
    cases hp : User.is_premium
        { u with daily_matches_used := 0, daily_messages_sent := 0, last_daily_reset := some now }
        now <;> simp [hp]




/-- C3 witness: the quota theorem applied at day 100 to a same-day user at the
ceiling and to a stale user from day 99. -/
theorem quota_gate_block_and_rollover_witness :
    freeUserAtCeiling.can_send_match (dayN 100) = false ∧
    ((staleUser.reset_daily_limits (dayN 100)).daily_matches_used = 0 ∧
      (staleUser.reset_daily_limits (dayN 100)).daily_messages_sent = 0 ∧
      (staleUser.reset_daily_limits (dayN 100)).last_daily_reset = some (dayN 100) ∧
      staleUser.can_send_match (dayN 100) = true) :=
  ⟨(quota_gate_block_and_rollover freeUserAtCeiling (dayN 100)).1
      (by simp [User.is_premium, freeUserAtCeiling]) rfl rfl,
    (quota_gate_block_and_rollover staleUser (dayN 100)).2 99 rfl
      (by norm_num [dayN, DateTime.date])⟩

/-- C8: from any terminal status (DECLINED, EXPIRED, BLOCKED, UNMATCHED) every
transition operation — respond, block, unmatch — returns
InvalidTransitionError; respond succeeds exactly from PENDING by the declared
receiver, accept yielding MATCHED with `matched_at` set and decline yielding
DECLINED. -/
theorem state_machine_closure (m : MatchRecord) (receiver blocker requester : ℕ)
    (accept : Bool) (now : DateTime) :
    (m.status.isTerminal = true →
      respond m receiver accept now = Except.error TransitionError.InvalidTransitionError ∧
      block m blocker = Except.error TransitionError.InvalidTransitionError ∧
      unmatch m requester = Except.error TransitionError.InvalidTransitionError) ∧
    (m.status = MatchStatus.PENDING →
      respond m m.receiver_id true now = Except.ok { m with
        status := MatchStatus.MATCHED
        matched_at := some now
        receiver_responded_at := some now } ∧
      respond m m.receiver_id false now = Except.ok
        { m with status := MatchStatus.DECLINED, receiver_responded_at := some now }) ∧
    (¬(m.status = MatchStatus.PENDING ∧ receiver = m.receiver_id) →
      respond m receiver accept now = Except.error TransitionError.InvalidTransitionError) := by
  refine ⟨?_, ?_, ?_⟩
  · intro hterm
    have hstat : m.status ≠ MatchStatus.PENDING ∧ m.status ≠ MatchStatus.MATCHED := by
      cases h : m.status <;> simp_all [MatchStatus.isTerminal]
    refine ⟨?_, ?_, ?_⟩
    · unfold respond
      rw [if_neg]
      intro hcon
      exact hstat.1 hcon.1
    · unfold block
      rw [if_neg]
      intro hcon
      rcases hcon with hcon | hcon
      · exact hstat.1 hcon
      · exact hstat.2 hcon
    · unfold unmatch
      rw [if_neg hstat.2]
  · intro hp
    constructor
    · unfold respond
      rw [if_pos ⟨hp, rfl⟩]
      simp
    · unfold respond
      rw [if_pos ⟨hp, rfl⟩]
      simp
  · intro hn
    unfold respond
    rw [if_neg hn]



/-- C8 witness: closure at a concrete DECLINED match and a successful accept
at a concrete PENDING match. -/
theorem state_machine_closure_witness :
    (respond declinedMatch 2 true (dayN 0) =
        Except.error TransitionError.InvalidTransitionError ∧
      block declinedMatch 1 = Except.error TransitionError.InvalidTransitionError ∧
      unmatch declinedMatch 2 = Except.error TransitionError.InvalidTransitionError) ∧
    respond pendingMatch pendingMatch.receiver_id true (dayN 0) = Except.ok { pendingMatch with
      status := MatchStatus.MATCHED
      matched_at := some (dayN 0)
      receiver_responded_at := some (dayN 0) } :=
  ⟨(state_machine_closure declinedMatch 2 1 2 true (dayN 0)).1
      (by simp [MatchStatus.isTerminal, declinedMatch]),
    ((state_machine_closure pendingMatch 2 1 2 true (dayN 0)).2.1 rfl).1⟩



/-- C2 witness: an age deal-breaker against a 45-year-old forces penalty 1 and
a zero final score. -/
theorem deal_breaker_veto_witness :
    (calculate_compatibility_score smokerNeverProfile ageDealBreakerPrefs olderProfile
        neutralPrefs).deal_breaker_penalty = 1 ∧
    (calculate_compatibility_score smokerNeverProfile ageDealBreakerPrefs olderProfile
        neutralPrefs).overall_score = 0 ∧
    (calculate_compatibility_score smokerNeverProfile ageDealBreakerPrefs olderProfile
        neutralPrefs).compatibility_score = 0 :=
  (deal_breaker_penalty_max_and_veto smokerNeverProfile ageDealBreakerPrefs olderProfile
      neutralPrefs).2.2
    (Or.inl ⟨rfl, by norm_num [olderProfile, ageDealBreakerPrefs, neutralPrefs]⟩)
